import Mathlib

/-!
Shallow embedding of the VibeReel carousel controller
(src/components/HeroBanner.jsx) and the cancellable resource loader
(useTMDB hook), together with theorems checking the specification's
claims about them.

JavaScript integer arithmetic on indices is modelled with Int and
Int.tmod (the truncating remainder, which matches the JS percent
operator on integers). Timers armed with setInterval are modelled
explicitly: a state carries the set of armed-and-not-yet-cleared
interval handles, each remembering the slide count its callback
closure captured, plus the single mutable ref cell timerRef.
-/

namespace VibeReel

/-- Interval duration from HeroBanner.jsx line 19. -/
def INTERVAL_MS : Nat := 6000

/-- Cap on the carousel size, from HeroBanner.jsx line 23:
total = Math.min(movies.length, 5). -/
def MAX_SLIDES : Nat := 5

/-- One armed interval: its handle id and the value of the variable
total captured by the callback closure passed to setInterval. -/
structure Timer where
  id : Nat
  capturedTotal : Nat
  deriving DecidableEq, Repr

/-- State of the HeroBanner carousel: the derived slide count, the
activeIndex React state, the timerRef ref cell, the list of armed and
not yet cleared intervals, and a fresh-handle counter. -/
structure CarouselState where
  total : Nat
  activeIndex : Int
  timerRef : Option Nat
  pending : List Timer
  nextId : Nat
  deriving DecidableEq, Repr

/-- clearInterval(h): the interval with handle h stops being pending. -/
def clearIntervalJs (s : CarouselState) (h : Nat) : CarouselState :=
  { s with pending := s.pending.filter (fun t => t.id ≠ h) }

/-- timerRef.current = setInterval(callback, INTERVAL_MS) where the
callback closure captured the slide count ct: arms a fresh interval
and stores its handle in the ref. -/
def setIntervalJs (s : CarouselState) (ct : Nat) : CarouselState :=
  { s with pending := s.pending ++ [⟨s.nextId, ct⟩],
           timerRef := some s.nextId,
           nextId := s.nextId + 1 }

/-- goTo from HeroBanner.jsx lines 29 to 36: setActiveIndex(idx), then
if (timerRef.current) clearInterval(timerRef.current), then arm a new
interval whose callback captured the current total. There is no bounds
check on idx. -/
def goTo (s : CarouselState) (idx : Int) : CarouselState :=
  let s1 : CarouselState := { s with activeIndex := idx }
  let s2 : CarouselState :=
    match s1.timerRef with
    | some h => clearIntervalJs s1 h
    | none => s1
  setIntervalJs s2 s2.total

/-- Body of the auto-advance useEffect, HeroBanner.jsx lines 39 to 45:
if (total < 2) return (registering no cleanup), else arm an interval.  -/
def autoAdvanceEffect (s : CarouselState) : CarouselState :=
  if s.total < 2 then s else setIntervalJs s s.total

/-- The cleanup the auto-advance effect returns when total was at least
2 at the time it ran: clearInterval(timerRef.current), reading the ref
at cleanup time. -/
def effectCleanup (s : CarouselState) : CarouselState :=
  match s.timerRef with
  | some h => clearIntervalJs s h
  | none => s

/-- Mounting the component with a movies array of the given length:
activeIndex initialised to 0 by useState(0), total = min(length, 5),
then the auto-advance effect runs. -/
def activate (len : Nat) : CarouselState :=
  autoAdvanceEffect
    { total := min len MAX_SLIDES, activeIndex := 0,
      timerRef := none, pending := [], nextId := 0 }

/-- The movies prop changes to a collection of the given length.
activeIndex is React state and is untouched by a prop change. The
effect has dependency [total], so it re-runs only when the derived
total changes; its previous cleanup runs first, and only if the
previous effect run registered one (it did not when the old total was
below 2). -/
def setMovies (s : CarouselState) (len : Nat) : CarouselState :=
  let newTotal := min len MAX_SLIDES
  if newTotal = s.total then s
  else
    let s1 := if s.total < 2 then s else effectCleanup s
    autoAdvanceEffect { s1 with total := newTotal }

/-- Unmount: React runs the last registered cleanup; the effect
registered none when total was below 2. -/
def deactivate (s : CarouselState) : CarouselState :=
  if s.total < 2 then s else effectCleanup s

/-- An armed interval t fires: setActiveIndex(prev => (prev + 1) %
total) with the total its closure captured. A cleared interval never
fires, hence the pending guard. -/
def tick (s : CarouselState) (t : Timer) : CarouselState :=
  if t ∈ s.pending then
    { s with activeIndex := Int.tmod (s.activeIndex + 1) t.capturedTotal }
  else s

/-- Dot i in the dots bar (HeroBanner.jsx lines 194 to 205): rendered
for each i below total, onClick calls goTo(i). -/
def dotClick (s : CarouselState) (i : Nat) : CarouselState := goTo s i

/-- Right arrow (rendered when total is above 1) and the ArrowRight key
handler: goTo((activeIndex + 1) % total). -/
def arrowNext (s : CarouselState) : CarouselState :=
  goTo s (Int.tmod (s.activeIndex + 1) s.total)

/-- Left arrow (rendered when total is above 1) and the ArrowLeft key
handler: goTo((activeIndex - 1 + total) % total). -/
def arrowPrev (s : CarouselState) : CarouselState :=
  goTo s (Int.tmod (s.activeIndex - 1 + s.total) s.total)

/-- A sequence of goTo calls. -/
def goTos (s : CarouselState) (idxs : List Int) : CarouselState :=
  idxs.foldl goTo s

/-- The activeIndex range invariant claimed by the specification. -/
def indexInv (s : CarouselState) : Prop :=
  0 ≤ s.activeIndex ∧ s.activeIndex < (s.total : Int)

instance (s : CarouselState) : Decidable (indexInv s) :=
  inferInstanceAs (Decidable (0 ≤ s.activeIndex ∧ s.activeIndex < (s.total : Int)))

/-! Resource loader: the useTMDB hook. Its state is the three useState
cells movies, loading, error. A fetch attempt resolves to one of:
a transport failure (the fetch promise rejects), or an HTTP response
with an ok flag, status, statusText and a body whose JSON parsing
either fails or yields an object whose results field is either a
present truthy array or absent/falsy. -/

/-- An item of the fetched collection; the hook treats entries as
opaque payload, so only an identifier is modelled. -/
structure Item where
  id : Nat
  deriving DecidableEq, Repr

/-- The three useState cells of useTMDB. -/
structure LoadState where
  movies : List Item
  loading : Bool
  error : Option String
  deriving DecidableEq, Repr

/-- Result of await res.json(): a rejection with a message, or a parsed
object whose results field is some list (present and truthy) or none
(absent or falsy). -/
inductive BodyResult where
  | parseFailure (msg : String)
  | parsed (results : Option (List Item))
  deriving DecidableEq, Repr

/-- How one fetch attempt resolves. -/
inductive FetchOutcome where
  | transportFailure (msg : String)
  | response (ok : Bool) (status : Nat) (statusText : String) (body : BodyResult)
  deriving DecidableEq, Repr

/-- Initial state from the useState initialisers: movies [], loading
true, error null. -/
def initLoadState : LoadState :=
  { movies := [], loading := true, error := none }

/-- The synchronous head of fetchTrending, before the first await:
setLoading(true); setError(null). -/
def fetchStart (s : LoadState) : LoadState :=
  { s with loading := true, error := none }

/-- The message of the error thrown on a non-ok response:
TMDB API error: status statusText. -/
def statusMessage (status : Nat) (statusText : String) : String :=
  "TMDB API error: " ++ toString status ++ " " ++ statusText

/-- The rest of fetchTrending, run when the attempt resolves, with
cancelled holding the cleanup flag's value at that moment. On the
ok path: if (!cancelled) setMovies(data.results or []); a non-ok
response throws into the catch, as does a transport or parse failure:
if (!cancelled) setError(err.message); the finally clause runs
if (!cancelled) setLoading(false). -/
def fetchResolve (cancelled : Bool) (outcome : FetchOutcome) (s : LoadState) : LoadState :=
  match outcome with
  | .transportFailure msg =>
      if cancelled then s else { s with error := some msg, loading := false }
  | .response ok status statusText body =>
      if ok then
        match body with
        | .parseFailure msg =>
            if cancelled then s else { s with error := some msg, loading := false }
        | .parsed results =>
            if cancelled then s
            else { s with movies := results.getD [], loading := false }
      else
        if cancelled then s
        else { s with error := some (statusMessage status statusText), loading := false }

/-! Theorems about the carousel controller. -/

/-- Arming or skipping the auto-advance interval never moves the
active index. -/
theorem autoAdvanceEffect_activeIndex (s : CarouselState) :
    (autoAdvanceEffect s).activeIndex = s.activeIndex := by
  unfold autoAdvanceEffect; split <;> rfl

/-- The effect cleanup never moves the active index. -/
theorem effectCleanup_activeIndex (s : CarouselState) :
    (effectCleanup s).activeIndex = s.activeIndex := by
  unfold effectCleanup; cases s.timerRef <;> rfl

/-- Claim C1, counterexample: on a 3-slide carousel, goTo 5 does not
fail and does not leave the state unchanged; it stores the
out-of-range index 5 verbatim in activeIndex (and does not clamp). -/
theorem goTo_out_of_range_accepted :
    (goTo (activate 3) 5).activeIndex = 5 ∧
    goTo (activate 3) 5 ≠ activate 3 ∧
    ¬ ((5 : Int) < ((activate 3).total : Int)) := by
  decide

/-- Claim C1, amended: goTo performs no bounds check at all. For every
state and every index, in range or not, it sets activeIndex to exactly
that index, rearms the timer (storing a fresh handle in timerRef) and
keeps the slide count; it neither signals an out-of-range condition
nor clamps. -/
theorem goTo_no_validation (s : CarouselState) (idx : Int) :
    (goTo s idx).activeIndex = idx ∧
    (goTo s idx).timerRef = some s.nextId ∧
    (goTo s idx).total = s.total := by
  cases h : s.timerRef <;>
    simp [goTo, h, clearIntervalJs, setIntervalJs]

/-- Claim C3, counterexample: on a 5-slide carousel, after a dot click
on slide 1, replacing the collection by one of 3 items (a size change,
hence also an identity change) leaves activeIndex at 1, not 0. -/
theorem setMovies_does_not_reset :
    (setMovies (dotClick (activate 5) 1) 3).total = 3 ∧
    (setMovies (dotClick (activate 5) 1) 3).activeIndex = 1 ∧
    (1 : Int) ≠ 0 := by
  decide

/-- Claim C3, amended: activeIndex is initialised to 0 on activation
only; a change of the input collection (of any size) never resets
activeIndex — the prop change leaves the React state cell untouched. -/
theorem setMovies_keeps_activeIndex (s : CarouselState) (len : Nat) :
    (setMovies s len).activeIndex = s.activeIndex ∧
    (activate len).activeIndex = 0 := by
  constructor
  · unfold setMovies
    dsimp only
    split
    · rfl
    · rw [autoAdvanceEffect_activeIndex]
      dsimp only
      split
      · rfl
      · exact effectCleanup_activeIndex s
  · unfold activate
    rw [autoAdvanceEffect_activeIndex]

/-- Claim C4, evaluation at the failing input: mounting with a single
movie arms no timer, but clicking the one rendered dot calls goTo(0),
which arms a 6000 ms interval although the slide count is 1; and since
the auto-advance effect registered no cleanup for total below 2,
unmounting leaves that interval pending. -/
theorem single_slide_dot_click_arms_timer :
    (activate 1).pending = [] ∧
    (dotClick (activate 1) 0).total = 1 ∧
    (dotClick (activate 1) 0).pending.length = 1 ∧
    (dotClick (activate 1) 0).timerRef ≠ none ∧
    (deactivate (dotClick (activate 1) 0)).pending.length = 1 := by
  decide

/-- goTo writes the requested index into activeIndex unconditionally. -/
theorem goTo_activeIndex (s : CarouselState) (idx : Int) :
    (goTo s idx).activeIndex = idx := by
  cases h : s.timerRef <;> simp [goTo, h, clearIntervalJs, setIntervalJs]

/-- goTo keeps the slide count. -/
theorem goTo_total (s : CarouselState) (idx : Int) :
    (goTo s idx).total = s.total := by
  cases h : s.timerRef <;> simp [goTo, h, clearIntervalJs, setIntervalJs]

/-- The auto-advance effect keeps the slide count. -/
theorem autoAdvanceEffect_total (s : CarouselState) :
    (autoAdvanceEffect s).total = s.total := by
  unfold autoAdvanceEffect; split <;> rfl

/-- On activation with at least 2 slides, exactly the one interval
armed by the auto-advance effect is pending, and timerRef holds its
handle. -/
theorem activate_timerInv {len : Nat} (h : 2 ≤ len) :
    ∃ t, (activate len).pending = [t] ∧ (activate len).timerRef = some t.id := by
  have hm : ¬ (min len MAX_SLIDES < 2) := by unfold MAX_SLIDES; omega
  refine ⟨⟨0, min len MAX_SLIDES⟩, ?_, ?_⟩ <;>
    simp [activate, autoAdvanceEffect, setIntervalJs, hm]

/-- goTo preserves the single-pending-timer invariant: it clears the
ref-held interval, which is exactly the one pending interval, before
arming the fresh one. -/
theorem goTo_timerInv {s : CarouselState}
    (h : ∃ t, s.pending = [t] ∧ s.timerRef = some t.id) (idx : Int) :
    ∃ t, (goTo s idx).pending = [t] ∧ (goTo s idx).timerRef = some t.id := by
  obtain ⟨t, hp, hr⟩ := h
  refine ⟨⟨s.nextId, s.total⟩, ?_, ?_⟩ <;>
    simp [goTo, hr, hp, clearIntervalJs, setIntervalJs, List.filter]

/-- The single-pending-timer invariant survives any goTo sequence. -/
theorem goTos_timerInv {s : CarouselState}
    (h : ∃ t, s.pending = [t] ∧ s.timerRef = some t.id) (idxs : List Int) :
    ∃ t, (goTos s idxs).pending = [t] ∧ (goTos s idxs).timerRef = some t.id := by
  induction idxs generalizing s with
  | nil => exact h
  | cons i rest ih => exact ih (goTo_timerInv h i)

/-- Claim C5: for every collection of at least two items and every
sequence of goTo calls after activation, exactly one interval is
pending at every instant — each goTo clears the previously armed
interval (held in timerRef) before arming the new one, so no timer
leaks. -/
theorem goTo_sequence_single_timer (len : Nat) (idxs : List Int) (h : 2 ≤ len) :
    ∃ t, (goTos (activate len) idxs).pending = [t] ∧
         (goTos (activate len) idxs).timerRef = some t.id :=
  goTos_timerInv (activate_timerInv h) idxs

/-- Claim C5 witness at a 3-slide carousel and a concrete goTo
sequence. -/
theorem goTo_sequence_single_timer_witness :
    2 ≤ 3 ∧
    (∃ t, (goTos (activate 3) [2, 0, 1]).pending = [t] ∧
          (goTos (activate 3) [2, 0, 1]).timerRef = some t.id) :=
  ⟨by decide, goTo_sequence_single_timer 3 [2, 0, 1] (by decide)⟩

/-- Adding the modulus to a reduced residue and reducing again gives
the residue back (stated for the truncating remainder on nonnegative
inputs). -/
theorem tmod_add_cancel {a n : Int} (ha : 0 ≤ a) (han : a < n) :
    Int.tmod (a + n) n = a := by
  rw [Int.tmod_eq_emod (by omega) (by omega), Int.add_emod_self]
  exact Int.emod_eq_of_lt ha han

/-- Advancing then retreating modulo n is the identity on [0, n). -/
theorem tmod_succ_pred_cancel {a n : Int} (ha : 0 ≤ a) (han : a < n) :
    Int.tmod (Int.tmod (a + 1) n - 1 + n) n = a := by
  rcases lt_or_eq_of_le (by omega : a + 1 ≤ n) with h | h
  · rw [Int.tmod_eq_of_lt (by omega) h]
    have he : a + 1 - 1 + n = a + n := by ring
    rw [he, tmod_add_cancel ha han]
  · rw [h, Int.tmod_self]
    have he : (0 : Int) - 1 + n = n - 1 := by ring
    rw [he, Int.tmod_eq_of_lt (by omega) (by omega)]
    omega

/-- Retreating then advancing modulo n is the identity on [0, n). -/
theorem tmod_pred_succ_cancel {a n : Int} (ha : 0 ≤ a) (han : a < n) :
    Int.tmod (Int.tmod (a - 1 + n) n + 1) n = a := by
  rcases eq_or_lt_of_le ha with h | h
  · have he : a - 1 + n = n - 1 := by omega
    have hinner : Int.tmod (n - 1) n = n - 1 :=
      Int.tmod_eq_of_lt (by omega) (by omega)
    have he2 : n - 1 + 1 = n := by ring
    rw [he, hinner, he2, Int.tmod_self]
    exact h
  · have hinner : Int.tmod (a - 1 + n) n = a - 1 :=
      tmod_add_cancel (by omega) (by omega)
    rw [hinner]
    have he2 : a - 1 + 1 = a := by ring
    rw [he2, Int.tmod_eq_of_lt ha han]

/-- Claim C6: for a nonempty carousel with activeIndex in range, the
right arrow (or ArrowRight key) followed by the left arrow (or
ArrowLeft key) — each a goTo at the wrapped neighbour index — returns
activeIndex to its original value, and likewise in the other order. -/
theorem next_prev_roundtrip (s : CarouselState) (_h1 : 1 ≤ s.total)
    (h2 : 0 ≤ s.activeIndex) (h3 : s.activeIndex < (s.total : Int)) :
    (arrowPrev (arrowNext s)).activeIndex = s.activeIndex ∧
    (arrowNext (arrowPrev s)).activeIndex = s.activeIndex := by
  constructor
  · unfold arrowPrev arrowNext
    rw [goTo_activeIndex, goTo_activeIndex, goTo_total]
    exact tmod_succ_pred_cancel h2 h3
  · unfold arrowNext arrowPrev
    rw [goTo_activeIndex, goTo_activeIndex, goTo_total]
    exact tmod_pred_succ_cancel h2 h3

/-- Claim C6 witness at a 3-slide carousel positioned on slide 1. -/
theorem next_prev_roundtrip_witness :
    (1 ≤ (dotClick (activate 3) 1).total ∧
     0 ≤ (dotClick (activate 3) 1).activeIndex ∧
     (dotClick (activate 3) 1).activeIndex < ((dotClick (activate 3) 1).total : Int)) ∧
    (arrowPrev (arrowNext (dotClick (activate 3) 1))).activeIndex =
      (dotClick (activate 3) 1).activeIndex ∧
    (arrowNext (arrowPrev (dotClick (activate 3) 1))).activeIndex =
      (dotClick (activate 3) 1).activeIndex :=
  ⟨⟨by decide, by decide, by decide⟩,
   next_prev_roundtrip (dotClick (activate 3) 1) (by decide) (by decide) (by decide)⟩

/-- Claim C7: on a carousel of at least two slides, a firing of any
armed interval whose closure captured the current slide count advances
activeIndex to (activeIndex + 1) mod slideCount. -/
theorem tick_advances (s : CarouselState) (t : Timer) (_h2 : 2 ≤ s.total)
    (hmem : t ∈ s.pending) (hct : t.capturedTotal = s.total) :
    (tick s t).activeIndex = Int.tmod (s.activeIndex + 1) (s.total : Int) := by
  unfold tick
  rw [if_pos hmem]
  dsimp only
  rw [hct]

/-- Claim C7 witness, the wraparound scenario: activate with 3 items,
goTo(2), then the armed interval fires and activeIndex wraps to 0. -/
theorem tick_advances_witness :
    2 ≤ (goTo (activate 3) 2).total ∧
    (⟨1, 3⟩ : Timer) ∈ (goTo (activate 3) 2).pending ∧
    (Timer.mk 1 3).capturedTotal = (goTo (activate 3) 2).total ∧
    (tick (goTo (activate 3) 2) ⟨1, 3⟩).activeIndex =
      Int.tmod ((goTo (activate 3) 2).activeIndex + 1) ((goTo (activate 3) 2).total : Int) ∧
    (goTo (activate 3) 2).activeIndex = 2 ∧
    (tick (goTo (activate 3) 2) ⟨1, 3⟩).activeIndex = 0 :=
  ⟨by decide, by decide, by decide,
   tick_advances (goTo (activate 3) 2) ⟨1, 3⟩ (by decide) (by decide) (by decide),
   by decide, by decide⟩

/-- Claim C2, counterexample: from a legitimately reachable state —
activate with 5 items, click dot 4 — shrinking the collection to 3
items leaves activeIndex at 4 with slideCount 3, violating the range
invariant. -/
theorem collection_change_breaks_indexInv :
    (setMovies (dotClick (activate 5) 4) 3).total = 3 ∧
    (setMovies (dotClick (activate 5) 4) 3).activeIndex = 4 ∧
    ¬ indexInv (setMovies (dotClick (activate 5) 4) 3) := by
  decide

/-- Claim C2, amended: when slideCount is positive and activeIndex is
in range, the invariant 0 ≤ activeIndex < slideCount is established by
activation of a nonempty collection and preserved by every rendered
navigation (dot click on a rendered dot, arrow and keyboard
navigation) and by any armed interval firing whose closure captured
the current slide count; it is not preserved by a collection change
(nor by an out-of-range goTo). -/
theorem indexInv_preserved (s : CarouselState) (i : Nat) (t : Timer) (n : Nat)
    (hpos : 0 < s.total) (hinv : indexInv s) (hi : i < s.total)
    (hct : t.capturedTotal = s.total) (hn : 0 < min n MAX_SLIDES) :
    indexInv (dotClick s i) ∧ indexInv (arrowNext s) ∧ indexInv (arrowPrev s) ∧
    indexInv (tick s t) ∧ indexInv (activate n) := by
  obtain ⟨ha, hb⟩ := hinv
  have hn' : (0 : Int) < (s.total : Int) := by exact_mod_cast hpos
  refine ⟨?_, ?_, ?_, ?_, ?_⟩
  · unfold dotClick indexInv
    rw [goTo_activeIndex, goTo_total]
    exact ⟨Int.ofNat_nonneg i, by exact_mod_cast hi⟩
  · unfold arrowNext indexInv
    rw [goTo_activeIndex, goTo_total]
    exact ⟨Int.tmod_nonneg _ (by omega), Int.tmod_lt_of_pos _ hn'⟩
  · unfold arrowPrev indexInv
    rw [goTo_activeIndex, goTo_total]
    exact ⟨Int.tmod_nonneg _ (by omega), Int.tmod_lt_of_pos _ hn'⟩
  · unfold tick indexInv
    split
    · dsimp only
      rw [hct]
      exact ⟨Int.tmod_nonneg _ (by omega), Int.tmod_lt_of_pos _ hn'⟩
    · exact ⟨ha, hb⟩
  · unfold indexInv activate
    rw [autoAdvanceEffect_activeIndex, autoAdvanceEffect_total]
    refine ⟨le_refl 0, ?_⟩
    show (0 : Int) < ((min n MAX_SLIDES : Nat) : Int)
    exact_mod_cast hn

/-- Claim C2 amended witness at a 3-slide carousel. -/
theorem indexInv_preserved_witness :
    (0 < (activate 3).total ∧ indexInv (activate 3) ∧ 1 < (activate 3).total ∧
     (Timer.mk 0 3).capturedTotal = (activate 3).total ∧ 0 < min 4 MAX_SLIDES) ∧
    (indexInv (dotClick (activate 3) 1) ∧ indexInv (arrowNext (activate 3)) ∧
     indexInv (arrowPrev (activate 3)) ∧ indexInv (tick (activate 3) ⟨0, 3⟩) ∧
     indexInv (activate 4)) :=
  ⟨⟨by decide, by decide, by decide, by decide, by decide⟩,
   indexInv_preserved (activate 3) 1 ⟨0, 3⟩ 4
     (by decide) (by decide) (by decide) (by decide) (by decide)⟩

/-! Theorems about the resource loader. -/

/-- Claim C8: if the loader was deactivated (the cleanup set cancelled
to true) before a fetch attempt resolves, the eventual resolution —
whatever its outcome — mutates no loader state: movies, loading and
error are all left unchanged, so no emission occurs. -/
theorem resolve_after_deactivate (outcome : FetchOutcome) (s : LoadState) :
    fetchResolve true outcome s = s := by
  cases outcome with
  | transportFailure msg => rfl
  | response ok status statusText body =>
      cases ok <;> cases body <;> rfl

/-- Claim C10: an HTTP-success response whose parsed body lacks a
results field (or whose results is falsy) commits, when still active,
a successful state: empty movies list, loading false, and no error —
not a payload-parse failure. -/
theorem empty_results_commits_success (s : LoadState) (status : Nat) (statusText : String) :
    fetchResolve false (.response true status statusText (.parsed none)) (fetchStart s) =
      { movies := [], loading := false, error := none } := by
  rfl

/-- Claim C9, counterexample: the loader stores err.message with no
kind tag, so failures of different kinds can commit byte-for-byte
identical loader states. A transport failure and a payload-parse
failure whose environment-chosen messages coincide are
indistinguishable; and a transport failure whose message happens to
match the non-success template is indistinguishable from a non-success
HTTP response commit. -/
theorem error_kinds_collide :
    fetchResolve false (.transportFailure "boom") initLoadState =
      fetchResolve false (.response true 200 "OK" (.parseFailure "boom")) initLoadState ∧
    (fetchResolve false (.transportFailure "boom") initLoadState).error = some "boom" ∧
    fetchResolve false
        (.transportFailure (statusMessage 500 "Internal Server Error")) initLoadState =
      fetchResolve false
        (.response false 500 "Internal Server Error" (.parsed none)) initLoadState := by
  refine ⟨rfl, rfl, rfl⟩

/-- Claim C9, amended: every failure kind is surfaced to the active
loader via LoadState.error (with loading cleared), never thrown past
it; the non-success HTTP kind always commits a message of the form
"TMDB API error: status statusText", while transport and payload-parse
failures commit the environment's message verbatim; the loader
attaches no kind tag, so no two kinds are guaranteed to yield
distinguishable LoadState.error values. -/
theorem failures_surfaced_via_error (msg : String) (s : LoadState)
    (status : Nat) (statusText : String) (body : BodyResult) :
    (fetchResolve false (.transportFailure msg) s).error = some msg ∧
    (fetchResolve false (.transportFailure msg) s).loading = false ∧
    (fetchResolve false (.response true status statusText (.parseFailure msg)) s).error = some msg ∧
    (fetchResolve false (.response true status statusText (.parseFailure msg)) s).loading = false ∧
    (fetchResolve false (.response false status statusText body) s).error =
      some (statusMessage status statusText) ∧
    (fetchResolve false (.response false status statusText body) s).loading = false ∧
    ∃ rest, statusMessage status statusText = "TMDB API error: " ++ rest := by
  refine ⟨rfl, rfl, rfl, rfl, rfl, rfl,
    ⟨toString status ++ " " ++ statusText, ?_⟩⟩
  simp [statusMessage, String.append_assoc]

end VibeReel
